import Mathlib

/-!
Shallow embedding of `netzooe_eservice_api` (files `api.py`, `constants.py`,
`error.py`): an authenticated HTTP client for the Netz OÖ eService portal.

The transport (aiohttp `ClientSession`) is modelled as a list of pending
`NetEvent`s consumed one per outbound network call, and the client state
(`self.xsrf_token`, whether the session has been closed) is threaded
explicitly.  Every outbound request is additionally recorded in a trace so
that counting properties (number of attempts at an endpoint, number of login
sequences) can be stated.  Raised Python exceptions become the `Res.raised`
result; exhausting the event list is the modelling artefact `Res.stuck`
(a real run always has a transport outcome for each call).
-/

namespace NetzOOE

/-- A JSON value, modelling the Python dict/list/str payloads the client
builds and the decoded bodies (`resp.json()`) it returns. -/
inductive JVal where
  | null
  | str (s : String)
  | num (n : Int)
  | arr (xs : List JVal)
  | obj (fields : List (String × JVal))

/-- Field access on a JSON object (used only to state properties about
request bodies the client builds). -/
def JVal.lookup : JVal → String → Option JVal
  | .obj fields, k => List.lookup k fields
  | _, _ => none

/-- `constants.py`: `ESERVICE_PORTAL`. -/
def ESERVICE_PORTAL : String := "https://eservice.netzooe.at"

/-- `constants.py`: `ESERVICE_PORTAL_API = f"{ESERVICE_PORTAL}/service/v1.0"`. -/
def ESERVICE_PORTAL_API : String := ESERVICE_PORTAL ++ "/service/v1.0"

/-- `constants.py`: `COMMON_HEADERS`. -/
def COMMON_HEADERS : List (String × String) :=
  [("User-Agent", "Mozilla/5.0"),
   ("Accept", "application/json, text/plain, */*"),
   ("client-id", "netzonline")]

/-- `constants.py`: `class ConsentsStatus(Enum)`. -/
inductive ConsentsStatus where
  | ACTIVE
  | ACTIVE_UNCHANGEABLE
  | REVOKED
deriving DecidableEq

/-- The `.value` of a `ConsentsStatus` member. -/
def ConsentsStatus.value : ConsentsStatus → String
  | .ACTIVE => "ACTIVE"
  | .ACTIVE_UNCHANGEABLE => "ACTIVE_UNCHANGEABLE"
  | .REVOKED => "REVOKED"

/-- `constants.py`: `class ConsumptionsProfilesBranch(Enum)`. -/
inductive ConsumptionsProfilesBranch where
  | ELECTRICITY
deriving DecidableEq

/-- The `.value` of a `ConsumptionsProfilesBranch` member. -/
def ConsumptionsProfilesBranch.value : ConsumptionsProfilesBranch → String
  | .ELECTRICITY => "STROM"

/-- An HTTP response as the transport delivers it: status code, the list of
`Set-Cookie` header values (`headers.getall("Set-Cookie", [])`), the body as
text (`await resp.text()`) and as decoded JSON (`await resp.json()`). -/
structure HttpResp where
  status : Nat
  setCookie : List String
  text : String
  jsonBody : JVal

/-- Outcome of one outbound network call: either a response, or the
transport raising `aiohttp.ClientError` with the given message. -/
inductive NetEvent where
  | resp (r : HttpResp)
  | clientError (msg : String)

/-- One outbound request, as recorded for counting properties:
the login POST to `j_security_check`, the GET to `/session`, the GET to
`/logout`, or a data request made by `_request` (method, url, optional JSON
body, headers attached). -/
inductive ReqEvent where
  | authPost
  | sessionGet
  | logoutGet
  | dataReq (method : String) (url : String) (json : Option JVal)
      (headers : List (String × String))

/-- Client and transport state: `self.xsrf_token` (empty string at
construction), whether `self._session` has been closed, the pending
transport events, and the trace of requests sent so far. -/
structure St where
  xsrfToken : String
  closed : Bool
  env : List NetEvent
  trace : List ReqEvent

/-- Exceptions the embedded code can raise (`error.py` and aiohttp):
`APIError(message, status=...)` and `AuthenticationError(status=...)`
recorded with their constructor arguments, and an uncaught
`aiohttp.ClientError`. -/
inductive Exc where
  | apiError (message : String) (status : Option Nat)
  | authError (status : Nat)
  | transportError (message : String)

/-- Result of running an operation: normal return with the final state, a
raised exception with the state at the raise site, or `stuck` when the
modelled transport event list was exhausted. -/
inductive Res (α : Type) where
  | ok (v : α) (s : St)
  | raised (e : Exc) (s : St)
  | stuck (s : St)

/-- The state carried by a result, whichever constructor it is. -/
def Res.state {α : Type} : Res α → St
  | .ok _ s => s
  | .raised _ s => s
  | .stuck s => s

/-- Python-dict-style header update: replace the value of an existing key in
place, otherwise append the pair. -/
def setHeader (hs : List (String × String)) (k v : String) :
    List (String × String) :=
  if hs.any (fun p => p.1 = k) then
    hs.map (fun p => if p.1 = k then (k, v) else p)
  else
    hs ++ [(k, v)]

/-- `api.py` `headers` property: `COMMON_HEADERS` plus `Content-Type` and
`x-xsrf-token` with the stored token. -/
def clientHeaders (token : String) : List (String × String) :=
  COMMON_HEADERS ++
    [("Content-Type", "application/json"), ("x-xsrf-token", token)]

/-- The headers `_request` attaches: a copy of the `headers` property, with
`Content-Type` re-set to `"application/json"` when a JSON body is given
(`api.py` lines 91-94). -/
def requestHeaders (token : String) (json : Option JVal) :
    List (String × String) :=
  let headers := clientHeaders token
  if json.isSome then setHeader headers "Content-Type" "application/json"
  else headers

/-- `re.search(r"XSRF-TOKEN=([^;]+)", s)` scanning positions left to right:
at each position the literal `XSRF-TOKEN=` must match and the greedy group
`[^;]+` needs at least one non-semicolon character; on success the captured
group is the maximal such run. -/
def xsrfSearch : List Char → Option String
  | [] => none
  | c :: cs =>
    if List.isPrefixOf "XSRF-TOKEN=".toList (c :: cs) then
      let tok := ((c :: cs).drop "XSRF-TOKEN=".toList.length).takeWhile
        (fun ch => ch ≠ ';')
      if tok.isEmpty then xsrfSearch cs else some (String.mk tok)
    else
      xsrfSearch cs

/-- `_set_xsrf_token(headers)` (`api.py` lines 73-78): join the `Set-Cookie`
values with `";"`, search for the token pattern, and store the captured
group only when a match is found. -/
def setXsrfToken (s : St) (cookies : List String) : St :=
  match xsrfSearch (String.intercalate ";" cookies).toList with
  | some tok => { s with xsrfToken := tok }
  | none => s

/-- `_get_session` (`api.py` lines 65-71): GET `/session`; on a non-OK
status close the session and raise `APIError(status=...)`; otherwise return
the response. -/
def getSessionInfo (s : St) : Res HttpResp :=
  match s.env with
  | [] => .stuck s
  | event :: rest =>
    let s1 : St := { s with env := rest, trace := s.trace ++ [.sessionGet] }
    match event with
    | .clientError msg => .raised (.transportError msg) s1
    | .resp r =>
      if r.status = 200 then .ok r s1
      else .raised (.apiError "" (some r.status)) { s1 with closed := true }

/-- `login()` (`api.py` lines 120-142): POST the credentials to
`j_security_check`; on a non-OK status close the session and raise
`AuthenticationError` for 401 or `APIError(status=...)` otherwise; on OK,
fetch `/session` and extract the XSRF token from its `Set-Cookie` headers. -/
def login (s : St) : Res Unit :=
  match s.env with
  | [] => .stuck s
  | event :: rest =>
    let s1 : St := { s with env := rest, trace := s.trace ++ [.authPost] }
    match event with
    | .clientError msg => .raised (.transportError msg) s1
    | .resp r =>
      if r.status = 200 then
        match getSessionInfo s1 with
        | .ok sess s2 => .ok () (setXsrfToken s2 sess.setCookie)
        | .raised e s2 => .raised e s2
        | .stuck s2 => .stuck s2
      else
        let s2 : St := { s1 with closed := true }
        if r.status = 401 then .raised (.authError 401) s2
        else .raised (.apiError "" (some r.status)) s2

/-- `logout()` (`api.py` lines 144-154): best-effort GET to `/logout`
(an `aiohttp.ClientError` there would propagate uncaught), then close the
session if it is not closed yet. -/
def logout (s : St) : Res Unit :=
  match s.env with
  | [] => .stuck s
  | event :: rest =>
    let s1 : St := { s with env := rest, trace := s.trace ++ [.logoutGet] }
    match event with
    | .clientError msg => .raised (.transportError msg) s1
    | .resp _ => .ok () { s1 with closed := true }

/-- `api.py` lines 88-89: `if not self.xsrf_token: await self.login()`.
This runs before the `try` block, so an `aiohttp.ClientError` raised here
propagates to the caller uncaught. -/
def ensureLoggedIn (s : St) : Res Unit :=
  if s.xsrfToken = "" then login s else .ok () s

/-- The `except ClientError` handler of `_request` (`api.py` lines
110-112): an `aiohttp.ClientError` escaping the `try` block closes the
session and becomes `APIError(str(error))` (no status); every other
outcome passes through unchanged. -/
def handleClientError (t : Res JVal) : Res JVal :=
  match t with
  | .raised (.transportError msg) s =>
    .raised (.apiError msg none) { s with closed := true }
  | other => other

/-- The body of `_request`'s `try` block up to the status dispatch
(`api.py` lines 96-109): send the request with the attached headers, record
it, and interpret the status — 200 returns the decoded JSON, 401 invokes
the caller-supplied unauthorized policy (retry or fail, see `requestFuel`),
any other status raises `APIError(text, status)`.  A transport
`ClientError` at the call becomes `transportError`, to be caught by the
enclosing `handleClientError`. -/
def attemptRequest (method : String) (url : String) (json : Option JVal)
    (onUnauthorized : St → Res JVal) (s1 : St) : Res JVal :=
  match s1.env with
  | [] => .stuck s1
  | event :: rest =>
    let s2 : St :=
      { s1 with
        env := rest,
        trace := s1.trace ++
          [.dataReq method url json (requestHeaders s1.xsrfToken json)] }
    match event with
    | .clientError msg => .raised (.transportError msg) s2
    | .resp r =>
      if r.status = 200 then
        .ok r.jsonBody s2
      else if r.status = 401 then
        onUnauthorized s2
      else
        .raised (.apiError r.text (some r.status)) s2

/-- The 401 policy of `_request` while the retry is still available
(`api.py` lines 101-103): `await self.login()`, then retry the original
call through the given continuation (`self._request(..., retry=False)`);
an exception from `login` propagates (it is still inside the `try` block,
so a transport `ClientError` among them is caught by the enclosing
`handleClientError`). -/
def retryAfterLogin (again : St → Res JVal) (s2 : St) : Res JVal :=
  match login s2 with
  | .ok _ s3 => again s3
  | .raised e s3 => .raised e s3
  | .stuck s3 => .stuck s3

/-- `_request(method, url, json=..., retry=...)` (`api.py` lines 80-112),
with the boolean `retry` given as the number of retries still allowed
(`retry=True` is fuel 1, the recursive call's `retry=False` is fuel 0; the
source recursion is bounded exactly this way).  Steps: if no token is
stored, `login()` first (outside the `try`, so its `ClientError` propagates
raw); then the `try` block: the attempt itself (`attemptRequest`), where a
401 either re-logins and retries once (fuel available) or closes the
session and raises `AuthenticationError`; finally the `except ClientError`
handler (`handleClientError`). -/
def requestFuel (method : String) (url : String) (json : Option JVal) :
    Nat → St → Res JVal
  | 0, s =>
    match ensureLoggedIn s with
    | .raised e s1 => .raised e s1
    | .stuck s1 => .stuck s1
    | .ok _ s1 =>
      handleClientError (attemptRequest method url json
        (fun s2 => .raised (.authError 401) { s2 with closed := true }) s1)
  | fuelLeft + 1, s =>
    match ensureLoggedIn s with
    | .raised e s1 => .raised e s1
    | .stuck s1 => .stuck s1
    | .ok _ s1 =>
      handleClientError (attemptRequest method url json
        (retryAfterLogin (fun s3 => requestFuel method url json fuelLeft s3))
        s1)

/-- `_request` with its boolean `retry` parameter (`retry=True` at every
external call site, `retry=False` only in the internal retry). -/
def request (method : String) (url : String) (json : Option JVal)
    (retry : Bool) (s : St) : Res JVal :=
  requestFuel method url json (cond retry 1 0) s

/-- `_get(url)` (`api.py` line 114): `_request("GET", url)`. -/
def getData (url : String) (s : St) : Res JVal :=
  request "GET" url none true s

/-- `_post(url, json=...)` (`api.py` line 117): `_request("POST", url,
json=json)`. -/
def postData (url : String) (json : JVal) (s : St) : Res JVal :=
  request "POST" url (some json) true s

/-- `dashboard()` (`api.py` lines 156-159). -/
def dashboard (s : St) : Res JVal :=
  getData (ESERVICE_PORTAL_API ++ "/dashboard") s

/-- The Python argument `status: list[ConsentsStatus] | ConsentsStatus |
None` of `consents` (and likewise `branch` of `consumptions_profiles`). -/
inductive EnumArg (α : Type) where
  | nothing
  | single (x : α)
  | many (xs : List α)

/-- The query-string suffix `consents` builds (`api.py` lines 163-170):
a non-list value is wrapped into a one-element list, and a list is joined
by commas into `?status=...`; `None` contributes nothing. -/
def consentsStatusString (status : EnumArg ConsentsStatus) : String :=
  match status with
  | .nothing => ""
  | .single x => "?status=" ++ String.intercalate ","
      ([x].map ConsentsStatus.value)
  | .many xs => "?status=" ++ String.intercalate ","
      (xs.map ConsentsStatus.value)

/-- The URL `consents` requests (`api.py` line 172). -/
def consentsUrl (status : EnumArg ConsentsStatus) : String :=
  ESERVICE_PORTAL_API ++ "/consents" ++ consentsStatusString status

/-- `consents(status)` (`api.py` lines 161-173). -/
def consents (status : EnumArg ConsentsStatus) (s : St) : Res JVal :=
  getData (consentsUrl status) s

/-- The query-string suffix `consumptions_profiles` builds
(`api.py` lines 179-186). -/
def consumptionsProfilesBranchString
    (branch : EnumArg ConsumptionsProfilesBranch) : String :=
  match branch with
  | .nothing => ""
  | .single x => "?branch=" ++ String.intercalate ","
      ([x].map ConsumptionsProfilesBranch.value)
  | .many xs => "?branch=" ++ String.intercalate ","
      (xs.map ConsumptionsProfilesBranch.value)

/-- `consumptions_profiles(branch)` (`api.py` lines 175-189). -/
def consumptionsProfiles (branch : EnumArg ConsumptionsProfilesBranch)
    (s : St) : Res JVal :=
  getData (ESERVICE_PORTAL_API ++ "/consumptions/profiles" ++
    consumptionsProfilesBranchString branch) s

/-- `contract_accounts(a, b)` (`api.py` lines 191-196). -/
def contractAccounts (businessPartnerNumber contractAccountNumber : String)
    (s : St) : Res JVal :=
  getData (ESERVICE_PORTAL_API ++ "/contract-accounts/" ++
    businessPartnerNumber ++ "/" ++ contractAccountNumber) s

/-- The JSON body `consumptions_profile` POSTs (`api.py` lines 209-223),
with the fields in source order. -/
def consumptionsProfileBody (contractAccountNumber energyCommunityId
    profileType bestAvailableGranularity meterPointAdministrationNumber
    dateFrom dateTo : String) : JVal :=
  .obj
    [("pods", .arr
        [.obj
          [("energyCommunityId", .str energyCommunityId),
           ("type", .str profileType),
           ("bestAvailableGranularity", .str bestAvailableGranularity),
           ("meterPointAdministrationNumber",
              .str meterPointAdministrationNumber),
           ("contractAccountNumber", .str contractAccountNumber),
           ("timerange", .obj
              [("from", .str dateFrom), ("to", .str dateTo)])]]),
     ("dimension", .str "ENERGY")]

/-- `consumptions_profile(...)` (`api.py` lines 198-225): POST the batch
body to `/consumptions/profile/active`. -/
def consumptionsProfile (contractAccountNumber energyCommunityId
    profileType bestAvailableGranularity meterPointAdministrationNumber
    dateFrom dateTo : String) (s : St) : Res JVal :=
  postData (ESERVICE_PORTAL_API ++ "/consumptions/profile/active")
    (consumptionsProfileBody contractAccountNumber energyCommunityId
      profileType bestAvailableGranularity meterPointAdministrationNumber
      dateFrom dateTo) s

/-- Whether a trace event is a data request sent by `_request`. -/
def ReqEvent.isDataReq : ReqEvent → Bool
  | .dataReq _ _ _ _ => true
  | _ => false

/-- Whether a trace event is the login POST to `j_security_check`. -/
def ReqEvent.isAuthPost : ReqEvent → Bool
  | .authPost => true
  | _ => false

/-- Number of data requests in a trace. -/
def countDataReqs (tr : List ReqEvent) : Nat :=
  tr.countP (fun e => e.isDataReq)

/-- Number of login POSTs in a trace. -/
def countAuthPosts (tr : List ReqEvent) : Nat :=
  tr.countP (fun e => e.isAuthPost)

theorem handleClientError_ok (v : JVal) (s : St) :
    handleClientError (.ok v s) = .ok v s := rfl

theorem handleClientError_apiError (m : String) (st : Option Nat) (s : St) :
    handleClientError (.raised (.apiError m st) s) =
      .raised (.apiError m st) s := rfl

theorem handleClientError_authError (st : Nat) (s : St) :
    handleClientError (.raised (.authError st) s) =
      .raised (.authError st) s := rfl

theorem handleClientError_transport (m : String) (s : St) :
    handleClientError (.raised (.transportError m) s) =
      .raised (.apiError m none) { s with closed := true } := rfl

theorem xsrfSearch_ne_empty (cs : List Char) (t : String)
    (h : xsrfSearch cs = some t) : t ≠ "" := by
  induction cs with
  | nil => simp [xsrfSearch] at h
  | cons c cs ih =>
    rw [xsrfSearch] at h
    split at h
    · dsimp only at h
      split at h
      · exact ih h
      · rename_i hne
        obtain rfl := Option.some.inj h
        intro hcontra
        apply hne
        have hd : (((c :: cs).drop "XSRF-TOKEN=".toList.length).takeWhile
            (fun ch => ch ≠ ';')) = [] := congrArg String.data hcontra
        rw [hd]
        rfl
    · exact ih h

theorem setXsrfToken_token_ne (s : St) (c : List String)
    (h : s.xsrfToken ≠ "") : (setXsrfToken s c).xsrfToken ≠ "" := by
  unfold setXsrfToken
  split
  · rename_i tok htok
    exact xsrfSearch_ne_empty _ _ htok
  · exact h

/-- C7: `consents` joins a list of statuses with commas in input order into
`?status=...`, wraps a single value into a one-element list giving
`?status=<value>`, and appends no query string at all for `None`; the
operation requests exactly the URL built this way. -/
theorem consents_query_building (l : List ConsentsStatus) (x : ConsentsStatus)
    (s : St) :
    consentsUrl (.many l) =
      ESERVICE_PORTAL_API ++ "/consents" ++
        ("?status=" ++ String.intercalate "," (l.map ConsentsStatus.value)) ∧
    consentsUrl (.single x) =
      ESERVICE_PORTAL_API ++ "/consents" ++ ("?status=" ++ x.value) ∧
    consentsUrl .nothing = ESERVICE_PORTAL_API ++ "/consents" ∧
    consentsUrl (.many [.ACTIVE, .ACTIVE_UNCHANGEABLE]) =
      "https://eservice.netzooe.at/service/v1.0/consents?status=ACTIVE,ACTIVE_UNCHANGEABLE" ∧
    consentsUrl (.single .ACTIVE) =
      "https://eservice.netzooe.at/service/v1.0/consents?status=ACTIVE" ∧
    consentsUrl .nothing =
      "https://eservice.netzooe.at/service/v1.0/consents" ∧
    consents (.many l) s = request "GET" (consentsUrl (.many l)) none true s := by
  refine ⟨rfl, ?_, rfl, rfl, rfl, rfl, rfl⟩
  cases x <;> rfl

/-- C8: the body POSTed by `consumptions_profile` always carries the
top-level field `dimension = "ENERGY"` and nests the requested profile
under `pods[0]` with the fields `contractAccountNumber`,
`energyCommunityId`, `type`, `bestAvailableGranularity`,
`meterPointAdministrationNumber` and `timerange: {from, to}` built from the
given date range (the source operation takes exactly one profile-request
descriptor, so `pods` always has exactly one entry). -/
theorem consumptionsProfile_body_shape (can eci pt gran mpan df dt : String)
    (s : St) :
    (consumptionsProfileBody can eci pt gran mpan df dt).lookup "dimension" =
      some (.str "ENERGY") ∧
    (∃ pod : JVal,
      (consumptionsProfileBody can eci pt gran mpan df dt).lookup "pods" =
        some (.arr [pod]) ∧
      pod.lookup "contractAccountNumber" = some (.str can) ∧
      pod.lookup "energyCommunityId" = some (.str eci) ∧
      pod.lookup "type" = some (.str pt) ∧
      pod.lookup "bestAvailableGranularity" = some (.str gran) ∧
      pod.lookup "meterPointAdministrationNumber" = some (.str mpan) ∧
      pod.lookup "timerange" =
        some (.obj [("from", .str df), ("to", .str dt)])) ∧
    consumptionsProfile can eci pt gran mpan df dt s =
      request "POST" (ESERVICE_PORTAL_API ++ "/consumptions/profile/active")
        (some (consumptionsProfileBody can eci pt gran mpan df dt)) true s := by
  exact ⟨rfl, ⟨_, rfl, rfl, rfl, rfl, rfl, rfl, rfl⟩, rfl⟩

/-- C10: when no substring of the joined `Set-Cookie` headers of the
session-info response matches `XSRF-TOKEN=([^;]+)`, `login()` returns
normally (no exception) and leaves the stored token field unchanged. -/
theorem login_token_match_missing (s : St) (rA rS : HttpResp)
    (rest : List NetEvent)
    (henv : s.env = .resp rA :: .resp rS :: rest)
    (hA : rA.status = 200) (hS : rS.status = 200)
    (hmatch : xsrfSearch (String.intercalate ";" rS.setCookie).toList = none) :
    login s =
      .ok () ⟨s.xsrfToken, s.closed, rest, s.trace ++ [.authPost, .sessionGet]⟩ := by
  obtain ⟨tok, cl, env, tr⟩ := s
  simp only at henv
  subst henv
  simp only [String.toList] at hmatch
  simp [login, getSessionInfo, hA, hS, setXsrfToken, hmatch]

/-- Witness for C10 at a concrete cookie list with no token match. -/
theorem login_token_match_missing_witness :
    login ⟨"tok0", false,
        [.resp ⟨200, [], "", .null⟩,
         .resp ⟨200, ["sid=1; Path=/"], "", .null⟩], []⟩ =
      .ok () ⟨"tok0", false, [], [.authPost, .sessionGet]⟩ :=
  login_token_match_missing _ _ _ _ rfl rfl rfl (by decide)

/-- C5: a non-OK status from the authentication endpoint makes `login()`
fail — with `AuthenticationError` when the status is 401, otherwise with
`APIError` carrying that status — and in both cases the stored XSRF token
remains empty. -/
theorem login_auth_endpoint_nonOK (s : St) (r : HttpResp)
    (rest : List NetEvent)
    (henv : s.env = .resp r :: rest) (hr : r.status ≠ 200)
    (ht : s.xsrfToken = "") :
    (login s).state.xsrfToken = "" ∧
    (r.status = 401 →
      login s = .raised (.authError 401)
        ⟨"", true, rest, s.trace ++ [.authPost]⟩) ∧
    (r.status ≠ 401 →
      login s = .raised (.apiError "" (some r.status))
        ⟨"", true, rest, s.trace ++ [.authPost]⟩) := by
  obtain ⟨tok, cl, env, tr⟩ := s
  simp only at henv ht
  subst henv
  subst ht
  by_cases h4 : r.status = 401 <;>
    simp [login, hr, h4, Res.state]

/-- Witness for C5 at status 503: `APIError` with that status, token still
empty. -/
theorem login_auth_endpoint_nonOK_witness :
    (login ⟨"", false, [.resp ⟨503, [], "", .null⟩], []⟩).state.xsrfToken = "" ∧
    ((503 : Nat) = 401 →
      login ⟨"", false, [.resp ⟨503, [], "", .null⟩], []⟩ =
        .raised (.authError 401) ⟨"", true, [], [.authPost]⟩) ∧
    ((503 : Nat) ≠ 401 →
      login ⟨"", false, [.resp ⟨503, [], "", .null⟩], []⟩ =
        .raised (.apiError "" (some 503)) ⟨"", true, [], [.authPost]⟩) :=
  login_auth_endpoint_nonOK _ _ _ rfl (by decide) rfl

theorem handleClientError_state_trace (t : Res JVal) :
    (handleClientError t).state.trace = t.state.trace := by
  cases t with
  | ok v s => rfl
  | stuck s => rfl
  | raised e s => cases e <;> rfl

theorem handleClientError_state_token (t : Res JVal) :
    (handleClientError t).state.xsrfToken = t.state.xsrfToken := by
  cases t with
  | ok v s => rfl
  | stuck s => rfl
  | raised e s => cases e <;> rfl

theorem setXsrfToken_trace (s : St) (c : List String) :
    (setXsrfToken s c).trace = s.trace := by
  unfold setXsrfToken
  split <;> rfl

theorem setXsrfToken_env (s : St) (c : List String) :
    (setXsrfToken s c).env = s.env := by
  unfold setXsrfToken
  split <;> rfl

theorem setXsrfToken_closed (s : St) (c : List String) :
    (setXsrfToken s c).closed = s.closed := by
  unfold setXsrfToken
  split <;> rfl

theorem setXsrfToken_token (s : St) (c : List String) :
    (setXsrfToken s c).xsrfToken = s.xsrfToken ∨
    (setXsrfToken s c).xsrfToken ≠ "" := by
  unfold setXsrfToken
  split
  · rename_i tok htok
    right
    exact xsrfSearch_ne_empty _ _ htok
  · left
    rfl

theorem tokOk_trans {a b c : String} (h1 : b = a ∨ b ≠ "")
    (h2 : c = b ∨ c ≠ "") : c = a ∨ c ≠ "" := by
  cases h2 with
  | inl h => rw [h]; exact h1
  | inr h => right; exact h

theorem countDataReqs_append (a b : List ReqEvent) :
    countDataReqs (a ++ b) = countDataReqs a + countDataReqs b := by
  simp [countDataReqs, List.countP_append]

theorem getSessionInfo_trace (s : St) :
    ∃ Δ, (getSessionInfo s).state.trace = s.trace ++ Δ ∧
      countDataReqs Δ = 0 := by
  obtain ⟨tok, cl, env, tr⟩ := s
  cases env with
  | nil => exact ⟨[], by simp [getSessionInfo, Res.state], rfl⟩
  | cons e rest =>
    cases e with
    | clientError m =>
      exact ⟨[.sessionGet], by simp [getSessionInfo, Res.state], rfl⟩
    | resp r =>
      by_cases h : r.status = 200
      · exact ⟨[.sessionGet], by simp [getSessionInfo, Res.state, h], rfl⟩
      · exact ⟨[.sessionGet], by simp [getSessionInfo, Res.state, h], rfl⟩

theorem getSessionInfo_token (s : St) :
    (getSessionInfo s).state.xsrfToken = s.xsrfToken := by
  obtain ⟨tok, cl, env, tr⟩ := s
  cases env with
  | nil => rfl
  | cons e rest =>
    cases e with
    | clientError m => rfl
    | resp r =>
      by_cases h : r.status = 200 <;> simp [getSessionInfo, Res.state, h]

theorem login_trace (s : St) :
    ∃ Δ, (login s).state.trace = s.trace ++ Δ ∧ countDataReqs Δ = 0 := by
  obtain ⟨tok, cl, env, tr⟩ := s
  cases env with
  | nil => exact ⟨[], by simp [login, Res.state], rfl⟩
  | cons e rest =>
    cases e with
    | clientError m =>
      exact ⟨[.authPost], by simp [login, Res.state], rfl⟩
    | resp r =>
      by_cases h : r.status = 200
      · obtain ⟨Δa, ha, hca⟩ :=
          getSessionInfo_trace ⟨tok, cl, rest, tr ++ [.authPost]⟩
        cases hgs : getSessionInfo ⟨tok, cl, rest, tr ++ [.authPost]⟩ with
        | ok sess s2 =>
          rw [hgs] at ha
          simp only [Res.state] at ha
          refine ⟨[.authPost] ++ Δa, ?_, ?_⟩
          · simp only [login, h, if_true, hgs]
            simp [Res.state, setXsrfToken_trace, ha]
          · rw [countDataReqs_append, hca]
            rfl
        | raised e s2 =>
          rw [hgs] at ha
          simp only [Res.state] at ha
          refine ⟨[.authPost] ++ Δa, ?_, ?_⟩
          · simp only [login, h, if_true, hgs]
            simp [Res.state, ha]
          · rw [countDataReqs_append, hca]
            rfl
        | stuck s2 =>
          rw [hgs] at ha
          simp only [Res.state] at ha
          refine ⟨[.authPost] ++ Δa, ?_, ?_⟩
          · simp only [login, h, if_true, hgs]
            simp [Res.state, ha]
          · rw [countDataReqs_append, hca]
            rfl
      · by_cases h4 : r.status = 401
        · exact ⟨[.authPost], by simp [login, Res.state, h, h4], rfl⟩
        · exact ⟨[.authPost], by simp [login, Res.state, h, h4], rfl⟩

theorem login_token (s : St) :
    (login s).state.xsrfToken = s.xsrfToken ∨
    (login s).state.xsrfToken ≠ "" := by
  obtain ⟨tok, cl, env, tr⟩ := s
  cases env with
  | nil => left; rfl
  | cons e rest =>
    cases e with
    | clientError m => left; rfl
    | resp r =>
      by_cases h : r.status = 200
      · have hgt := getSessionInfo_token ⟨tok, cl, rest, tr ++ [.authPost]⟩
        cases hgs : getSessionInfo ⟨tok, cl, rest, tr ++ [.authPost]⟩ with
        | ok sess s2 =>
          rw [hgs] at hgt
          simp only [Res.state] at hgt
          have hst := setXsrfToken_token s2 sess.setCookie
          simp only [login, h, if_true, hgs, Res.state]
          exact tokOk_trans (Or.inl hgt) hst
        | raised e s2 =>
          rw [hgs] at hgt
          simp only [Res.state] at hgt
          simp only [login, h, if_true, hgs, Res.state]
          left
          exact hgt
        | stuck s2 =>
          rw [hgs] at hgt
          simp only [Res.state] at hgt
          simp only [login, h, if_true, hgs, Res.state]
          left
          exact hgt
      · by_cases h4 : r.status = 401
        · left; simp [login, Res.state, h, h4]
        · left; simp [login, Res.state, h, h4]

theorem ensureLoggedIn_trace (s : St) :
    ∃ Δ, (ensureLoggedIn s).state.trace = s.trace ++ Δ ∧
      countDataReqs Δ = 0 := by
  unfold ensureLoggedIn
  split
  · exact login_trace s
  · exact ⟨[], by simp [Res.state], rfl⟩

theorem ensureLoggedIn_token (s : St) :
    (ensureLoggedIn s).state.xsrfToken = s.xsrfToken ∨
    (ensureLoggedIn s).state.xsrfToken ≠ "" := by
  unfold ensureLoggedIn
  split
  · exact login_token s
  · left; rfl

theorem attemptRequest_trace (m u : String) (j : Option JVal)
    (onU : St → Res JVal) (k : Nat) (s1 : St)
    (hU : ∀ s2 : St, ∃ Δ, (onU s2).state.trace = s2.trace ++ Δ ∧
      countDataReqs Δ ≤ k) :
    ∃ Δ, (attemptRequest m u j onU s1).state.trace = s1.trace ++ Δ ∧
      countDataReqs Δ ≤ k + 1 := by
  obtain ⟨tok, cl, env, tr⟩ := s1
  cases env with
  | nil =>
    exact ⟨[], by simp [attemptRequest, Res.state], Nat.zero_le _⟩
  | cons e rest =>
    have hone : countDataReqs [ReqEvent.dataReq m u j (requestHeaders tok j)]
        = 1 := rfl
    cases e with
    | clientError msg =>
      refine ⟨[.dataReq m u j (requestHeaders tok j)], ?_, ?_⟩
      · simp [attemptRequest, Res.state]
      · omega
    | resp r =>
      by_cases h2 : r.status = 200
      · refine ⟨[.dataReq m u j (requestHeaders tok j)], ?_, ?_⟩
        · simp [attemptRequest, Res.state, h2]
        · omega
      · by_cases h4 : r.status = 401
        · obtain ⟨Δa, ha, hca⟩ :=
            hU ⟨tok, cl, rest, tr ++ [.dataReq m u j (requestHeaders tok j)]⟩
          refine ⟨[.dataReq m u j (requestHeaders tok j)] ++ Δa, ?_, ?_⟩
          · simp only [attemptRequest, h2, h4, if_false, if_true]
            simp only at ha
            simp [ha]
          · rw [countDataReqs_append]
            omega
        · refine ⟨[.dataReq m u j (requestHeaders tok j)], ?_, ?_⟩
          · simp [attemptRequest, Res.state, h2, h4]
          · omega

theorem attemptRequest_token (m u : String) (j : Option JVal)
    (onU : St → Res JVal) (s1 : St)
    (hU : ∀ s2 : St, (onU s2).state.xsrfToken = s2.xsrfToken ∨
      (onU s2).state.xsrfToken ≠ "") :
    (attemptRequest m u j onU s1).state.xsrfToken = s1.xsrfToken ∨
    (attemptRequest m u j onU s1).state.xsrfToken ≠ "" := by
  obtain ⟨tok, cl, env, tr⟩ := s1
  cases env with
  | nil => left; rfl
  | cons e rest =>
    cases e with
    | clientError msg => left; rfl
    | resp r =>
      by_cases h2 : r.status = 200
      · left
        simp [attemptRequest, Res.state, h2]
      · by_cases h4 : r.status = 401
        · have h := hU ⟨tok, cl, rest,
            tr ++ [.dataReq m u j (requestHeaders tok j)]⟩
          simp only [attemptRequest, h2, h4, if_false, if_true]
          simpa using h
        · left
          simp [attemptRequest, Res.state, h2, h4]

theorem retryAfterLogin_trace (again : St → Res JVal) (k : Nat)
    (hAgain : ∀ s3 : St, ∃ Δ, (again s3).state.trace = s3.trace ++ Δ ∧
      countDataReqs Δ ≤ k) (s2 : St) :
    ∃ Δ, (retryAfterLogin again s2).state.trace = s2.trace ++ Δ ∧
      countDataReqs Δ ≤ k := by
  obtain ⟨Δa, ha, hca⟩ := login_trace s2
  cases hL : login s2 with
  | ok w s3 =>
    rw [hL] at ha
    simp only [Res.state] at ha
    obtain ⟨Δb, hb, hcb⟩ := hAgain s3
    refine ⟨Δa ++ Δb, ?_, ?_⟩
    · simp only [retryAfterLogin, hL]
      rw [hb, ha, List.append_assoc]
    · rw [countDataReqs_append]
      omega
  | raised e s3 =>
    rw [hL] at ha
    simp only [Res.state] at ha
    refine ⟨Δa, ?_, by omega⟩
    simp only [retryAfterLogin, hL, Res.state]
    exact ha
  | stuck s3 =>
    rw [hL] at ha
    simp only [Res.state] at ha
    refine ⟨Δa, ?_, by omega⟩
    simp only [retryAfterLogin, hL, Res.state]
    exact ha

theorem retryAfterLogin_token (again : St → Res JVal)
    (hAgain : ∀ s3 : St, (again s3).state.xsrfToken = s3.xsrfToken ∨
      (again s3).state.xsrfToken ≠ "") (s2 : St) :
    (retryAfterLogin again s2).state.xsrfToken = s2.xsrfToken ∨
    (retryAfterLogin again s2).state.xsrfToken ≠ "" := by
  have ha := login_token s2
  cases hL : login s2 with
  | ok w s3 =>
    rw [hL] at ha
    simp only [Res.state] at ha
    simp only [retryAfterLogin, hL]
    exact tokOk_trans ha (hAgain s3)
  | raised e s3 =>
    rw [hL] at ha
    simp only [Res.state] at ha
    simp only [retryAfterLogin, hL, Res.state]
    exact ha
  | stuck s3 =>
    rw [hL] at ha
    simp only [Res.state] at ha
    simp only [retryAfterLogin, hL, Res.state]
    exact ha

theorem requestFuel_trace (method url : String) (json : Option JVal) :
    ∀ (fuel : Nat) (s : St), ∃ Δ,
      (requestFuel method url json fuel s).state.trace = s.trace ++ Δ ∧
      countDataReqs Δ ≤ fuel + 1 := by
  intro fuel
  induction fuel with
  | zero =>
    intro s
    obtain ⟨Δ0, hΔ0, hc0⟩ := ensureLoggedIn_trace s
    rw [requestFuel]
    cases hE : ensureLoggedIn s with
    | raised e s1 =>
      rw [hE] at hΔ0
      simp only [Res.state] at hΔ0
      exact ⟨Δ0, by simp [Res.state, hΔ0], by omega⟩
    | stuck s1 =>
      rw [hE] at hΔ0
      simp only [Res.state] at hΔ0
      exact ⟨Δ0, by simp [Res.state, hΔ0], by omega⟩
    | ok v s1 =>
      rw [hE] at hΔ0
      simp only [Res.state] at hΔ0
      obtain ⟨Δ1, hΔ1, hc1⟩ := attemptRequest_trace method url json
        (fun s2 => .raised (.authError 401) { s2 with closed := true }) 0 s1
        (fun s2 => ⟨[], by simp [Res.state], Nat.le_refl _⟩)
      refine ⟨Δ0 ++ Δ1, ?_, ?_⟩
      · simp only [hE]
        rw [handleClientError_state_trace, hΔ1, hΔ0, List.append_assoc]
      · rw [countDataReqs_append]
        omega
  | succ n ih =>
    intro s
    obtain ⟨Δ0, hΔ0, hc0⟩ := ensureLoggedIn_trace s
    rw [requestFuel]
    cases hE : ensureLoggedIn s with
    | raised e s1 =>
      rw [hE] at hΔ0
      simp only [Res.state] at hΔ0
      exact ⟨Δ0, by simp [Res.state, hΔ0], by omega⟩
    | stuck s1 =>
      rw [hE] at hΔ0
      simp only [Res.state] at hΔ0
      exact ⟨Δ0, by simp [Res.state, hΔ0], by omega⟩
    | ok v s1 =>
      rw [hE] at hΔ0
      simp only [Res.state] at hΔ0
      obtain ⟨Δ1, hΔ1, hc1⟩ := attemptRequest_trace method url json
        (retryAfterLogin (fun s3 => requestFuel method url json n s3))
        (n + 1) s1
        (retryAfterLogin_trace (fun s3 => requestFuel method url json n s3)
          (n + 1) (fun s3 => ih s3))
      refine ⟨Δ0 ++ Δ1, ?_, ?_⟩
      · simp only [hE]
        rw [handleClientError_state_trace, hΔ1, hΔ0, List.append_assoc]
      · rw [countDataReqs_append]
        omega

theorem requestFuel_token (method url : String) (json : Option JVal) :
    ∀ (fuel : Nat) (s : St),
      (requestFuel method url json fuel s).state.xsrfToken = s.xsrfToken ∨
      (requestFuel method url json fuel s).state.xsrfToken ≠ "" := by
  intro fuel
  induction fuel with
  | zero =>
    intro s
    have hE0 := ensureLoggedIn_token s
    rw [requestFuel]
    cases hE : ensureLoggedIn s with
    | raised e s1 =>
      rw [hE] at hE0
      simpa [Res.state] using hE0
    | stuck s1 =>
      rw [hE] at hE0
      simpa [Res.state] using hE0
    | ok v s1 =>
      rw [hE] at hE0
      simp only [Res.state] at hE0
      simp only [hE]
      rw [handleClientError_state_token]
      exact tokOk_trans hE0 (attemptRequest_token method url json
        (fun s2 => .raised (.authError 401) { s2 with closed := true }) s1
        (fun s2 => Or.inl rfl))
  | succ n ih =>
    intro s
    have hE0 := ensureLoggedIn_token s
    rw [requestFuel]
    cases hE : ensureLoggedIn s with
    | raised e s1 =>
      rw [hE] at hE0
      simpa [Res.state] using hE0
    | stuck s1 =>
      rw [hE] at hE0
      simpa [Res.state] using hE0
    | ok v s1 =>
      rw [hE] at hE0
      simp only [Res.state] at hE0
      simp only [hE]
      rw [handleClientError_state_token]
      exact tokOk_trans hE0 (attemptRequest_token method url json
        (retryAfterLogin (fun s3 => requestFuel method url json n s3)) s1
        (retryAfterLogin_token (fun s3 => requestFuel method url json n s3)
          (fun s3 => ih s3)))

theorem attemptRequest_trace_prefix (m u : String) (j : Option JVal)
    (onU : St → Res JVal) (s1 : St) (ev : NetEvent) (rest : List NetEvent)
    (henv : s1.env = ev :: rest)
    (hU : ∀ s2 : St, ∃ Δ, (onU s2).state.trace = s2.trace ++ Δ) :
    ∃ Δ, (attemptRequest m u j onU s1).state.trace =
      s1.trace ++ [.dataReq m u j (requestHeaders s1.xsrfToken j)] ++ Δ := by
  obtain ⟨tok, cl, env, tr⟩ := s1
  simp only at henv
  subst henv
  cases ev with
  | clientError msg => exact ⟨[], by simp [attemptRequest, Res.state]⟩
  | resp r =>
    by_cases h2 : r.status = 200
    · exact ⟨[], by simp [attemptRequest, Res.state, h2]⟩
    · by_cases h4 : r.status = 401
      · obtain ⟨Δa, ha⟩ :=
          hU ⟨tok, cl, rest, tr ++ [.dataReq m u j (requestHeaders tok j)]⟩
        refine ⟨Δa, ?_⟩
        simp only [attemptRequest, h2, h4, if_false, if_true]
        simp only at ha
        simp [ha]
      · exact ⟨[], by simp [attemptRequest, Res.state, h2, h4]⟩

/-- `login` on the happy path: an OK auth response followed by an OK
session response returns normally and stores whatever `_set_xsrf_token`
extracts. -/
theorem login_ok_shape (s : St) (rA rS : HttpResp) (rest : List NetEvent)
    (henv : s.env = .resp rA :: .resp rS :: rest)
    (hA : rA.status = 200) (hS : rS.status = 200) :
    login s = .ok () (setXsrfToken
      ⟨s.xsrfToken, s.closed, rest, s.trace ++ [.authPost, .sessionGet]⟩
      rS.setCookie) := by
  obtain ⟨tok, cl, env, tr⟩ := s
  simp only at henv
  subst henv
  simp [login, getSessionInfo, hA, hS]

theorem request_true_eq (method url : String) (json : Option JVal)
    (s : St) :
    request method url json true s =
      requestFuel method url json (Nat.succ 0) s := rfl

/-- C3: every call of the authenticated request primitive terminates (the
embedding is a total function) and performs at most 2 attempts at the
endpoint: the data requests recorded in the trace grow by at most 2,
whatever the transport returns. -/
theorem request_attempt_bound (method url : String) (json : Option JVal)
    (retry : Bool) (s : St) :
    countDataReqs ((request method url json retry s).state.trace) ≤
      countDataReqs s.trace + 2 := by
  obtain ⟨Δ, hΔ, hc⟩ := requestFuel_trace method url json (cond retry 1 0) s
  rw [request, hΔ, countDataReqs_append]
  have hf : cond retry 1 0 + 1 ≤ 2 := by cases retry <;> decide
  omega

/-- C1: a data call whose first authenticated attempt gets 401 performs one
re-login (auth POST + session GET) and retries the original request exactly
once; a 200 on the retry returns the decoded JSON body — in total 2
attempts at the endpoint and 1 extra login sequence. -/
theorem request_single401_retry_ok (method url : String) (json : Option JVal)
    (t0 : String) (tr : List ReqEvent) (r1 rA rS r2 : HttpResp)
    (rest : List NetEvent) (ht : t0 ≠ "") (h1 : r1.status = 401)
    (hA : rA.status = 200) (hS : rS.status = 200) (h2 : r2.status = 200) :
    ∃ t1 : String,
      request method url json true
          ⟨t0, false, .resp r1 :: .resp rA :: .resp rS :: .resp r2 :: rest, tr⟩ =
        .ok r2.jsonBody
          ⟨t1, false, rest,
           tr ++ [.dataReq method url json (requestHeaders t0 json),
                  .authPost, .sessionGet,
                  .dataReq method url json (requestHeaders t1 json)]⟩ ∧
      countDataReqs
          [.dataReq method url json (requestHeaders t0 json), .authPost,
           .sessionGet, .dataReq method url json (requestHeaders t1 json)] = 2 ∧
      countAuthPosts
          [.dataReq method url json (requestHeaders t0 json), .authPost,
           .sessionGet, .dataReq method url json (requestHeaders t1 json)] = 1 := by
  obtain ⟨st1, ck1, tx1, js1⟩ := r1
  obtain ⟨stA, ckA, txA, jsA⟩ := rA
  obtain ⟨stS, ckS, txS, jsS⟩ := rS
  obtain ⟨st2, ck2, tx2, js2⟩ := r2
  have e1 : st1 = 401 := h1
  have eA : stA = 200 := hA
  have eS : stS = 200 := hS
  have e2 : st2 = 200 := h2
  subst e1; subst eA; subst eS; subst e2
  cases hsearch : xsrfSearch (String.intercalate ";" ckS).toList with
  | none =>
    refine ⟨t0, ?_, rfl, rfl⟩
    simp only [String.toList] at hsearch
    simp [request, requestFuel, attemptRequest, retryAfterLogin,
      ensureLoggedIn, login, getSessionInfo, setXsrfToken,
      handleClientError, ht, hsearch]
  | some tok =>
    have htok := xsrfSearch_ne_empty _ _ hsearch
    refine ⟨tok, ?_, rfl, rfl⟩
    simp only [String.toList] at hsearch
    simp [request, requestFuel, attemptRequest, retryAfterLogin,
      ensureLoggedIn, login, getSessionInfo, setXsrfToken,
      handleClientError, ht, hsearch, htok]

/-- Witness for C1: a concrete transport script with 401 then a successful
re-login and a 200 retry delivering the payload. -/
theorem request_single401_retry_ok_witness :
    ∃ t1 : String,
      request "GET" "https://eservice.netzooe.at/service/v1.0/dashboard" none
          true
          ⟨"tok0", false,
           [.resp ⟨401, [], "", .null⟩, .resp ⟨200, [], "", .null⟩,
            .resp ⟨200, ["XSRF-TOKEN=abc; Path=/"], "", .null⟩,
            .resp ⟨200, [], "", .str "payload"⟩], []⟩ =
        .ok (JVal.str "payload")
          ⟨t1, false, [],
           [.dataReq "GET"
              "https://eservice.netzooe.at/service/v1.0/dashboard" none
              (requestHeaders "tok0" none),
            .authPost, .sessionGet,
            .dataReq "GET"
              "https://eservice.netzooe.at/service/v1.0/dashboard" none
              (requestHeaders t1 none)]⟩ ∧
      countDataReqs
          [.dataReq "GET"
             "https://eservice.netzooe.at/service/v1.0/dashboard" none
             (requestHeaders "tok0" none),
           .authPost, .sessionGet,
           .dataReq "GET"
             "https://eservice.netzooe.at/service/v1.0/dashboard" none
             (requestHeaders t1 none)] = 2 ∧
      countAuthPosts
          [.dataReq "GET"
             "https://eservice.netzooe.at/service/v1.0/dashboard" none
             (requestHeaders "tok0" none),
           .authPost, .sessionGet,
           .dataReq "GET"
             "https://eservice.netzooe.at/service/v1.0/dashboard" none
             (requestHeaders t1 none)] = 1 :=
  request_single401_retry_ok "GET"
    "https://eservice.netzooe.at/service/v1.0/dashboard" none "tok0" []
    ⟨401, [], "", .null⟩ ⟨200, [], "", .null⟩
    ⟨200, ["XSRF-TOKEN=abc; Path=/"], "", .null⟩
    ⟨200, [], "", .str "payload"⟩ [] (by decide) rfl rfl rfl rfl

/-- C2 (amended): after a 401 and a successful re-login, a second 401 on
the retried attempt raises `AuthenticationError` and closes the session;
any other non-OK status on the retried attempt instead raises `APIError`
carrying the response text and that status, without closing the session. -/
theorem request_retry_nonOK (method url : String) (json : Option JVal)
    (t0 : String) (tr : List ReqEvent) (r1 rA rS r2 : HttpResp)
    (rest : List NetEvent) (ht : t0 ≠ "") (h1 : r1.status = 401)
    (hA : rA.status = 200) (hS : rS.status = 200) :
    (r2.status = 401 →
      ∃ t1 : String,
        request method url json true
            ⟨t0, false, .resp r1 :: .resp rA :: .resp rS :: .resp r2 :: rest,
             tr⟩ =
          .raised (.authError 401)
            ⟨t1, true, rest,
             tr ++ [.dataReq method url json (requestHeaders t0 json),
                    .authPost, .sessionGet,
                    .dataReq method url json (requestHeaders t1 json)]⟩) ∧
    (r2.status ≠ 200 → r2.status ≠ 401 →
      ∃ t1 : String,
        request method url json true
            ⟨t0, false, .resp r1 :: .resp rA :: .resp rS :: .resp r2 :: rest,
             tr⟩ =
          .raised (.apiError r2.text (some r2.status))
            ⟨t1, false, rest,
             tr ++ [.dataReq method url json (requestHeaders t0 json),
                    .authPost, .sessionGet,
                    .dataReq method url json (requestHeaders t1 json)]⟩) := by
  obtain ⟨st1, ck1, tx1, js1⟩ := r1
  obtain ⟨stA, ckA, txA, jsA⟩ := rA
  obtain ⟨stS, ckS, txS, jsS⟩ := rS
  obtain ⟨st2, ck2, tx2, js2⟩ := r2
  have e1 : st1 = 401 := h1
  have eA : stA = 200 := hA
  have eS : stS = 200 := hS
  subst e1; subst eA; subst eS
  constructor
  · intro h2
    have e2 : st2 = 401 := h2
    subst e2
    cases hsearch : xsrfSearch (String.intercalate ";" ckS).toList with
    | none =>
      refine ⟨t0, ?_⟩
      simp only [String.toList] at hsearch
      simp [request, requestFuel, attemptRequest, retryAfterLogin,
        ensureLoggedIn, login, getSessionInfo, setXsrfToken,
        handleClientError, ht, hsearch]
    | some tok =>
      have htok := xsrfSearch_ne_empty _ _ hsearch
      refine ⟨tok, ?_⟩
      simp only [String.toList] at hsearch
      simp [request, requestFuel, attemptRequest, retryAfterLogin,
        ensureLoggedIn, login, getSessionInfo, setXsrfToken,
        handleClientError, ht, hsearch, htok]
  · intro hne200 hne401
    cases hsearch : xsrfSearch (String.intercalate ";" ckS).toList with
    | none =>
      refine ⟨t0, ?_⟩
      simp only [String.toList] at hsearch
      simp [request, requestFuel, attemptRequest, retryAfterLogin,
        ensureLoggedIn, login, getSessionInfo, setXsrfToken,
        handleClientError, ht, hsearch, hne200, hne401]
    | some tok =>
      have htok := xsrfSearch_ne_empty _ _ hsearch
      refine ⟨tok, ?_⟩
      simp only [String.toList] at hsearch
      simp [request, requestFuel, attemptRequest, retryAfterLogin,
        ensureLoggedIn, login, getSessionInfo, setXsrfToken,
        handleClientError, ht, hsearch, htok, hne200, hne401]

/-- Counterexample to C2 as stated: a 403 on the retried attempt yields
`APIError` with status 403 — not `AuthenticationError` — and the session
is left open. -/
theorem request_retry_403_counterexample :
    request "GET" "u" none true
        ⟨"tok0", false,
         [.resp ⟨401, [], "", .null⟩, .resp ⟨200, [], "", .null⟩,
          .resp ⟨200, ["XSRF-TOKEN=abc"], "", .null⟩,
          .resp ⟨403, [], "denied", .null⟩], []⟩ =
      .raised (.apiError "denied" (some 403))
        ⟨"abc", false, [],
         [.dataReq "GET" "u" none (requestHeaders "tok0" none), .authPost,
          .sessionGet, .dataReq "GET" "u" none (requestHeaders "abc" none)]⟩ ∧
    Exc.apiError "denied" (some 403) ≠ Exc.authError 401 ∧
    (St.mk "abc" false []
        [.dataReq "GET" "u" none (requestHeaders "tok0" none), .authPost,
         .sessionGet,
         .dataReq "GET" "u" none (requestHeaders "abc" none)]).closed
      = false :=
  ⟨rfl, fun h => Exc.noConfusion h, rfl⟩

/-- Witness for C2 (amended), 401-retry side, at a concrete script. -/
theorem request_retry_nonOK_witness :
    ∃ t1 : String,
      request "GET" "u" none true
          ⟨"tok0", false,
           [.resp ⟨401, [], "", .null⟩, .resp ⟨200, [], "", .null⟩,
            .resp ⟨200, ["XSRF-TOKEN=abc"], "", .null⟩,
            .resp ⟨401, [], "", .null⟩], []⟩ =
        .raised (.authError 401)
          ⟨t1, true, [],
           [.dataReq "GET" "u" none (requestHeaders "tok0" none), .authPost,
            .sessionGet, .dataReq "GET" "u" none (requestHeaders t1 none)]⟩ :=
  (request_retry_nonOK "GET" "u" none "tok0" []
    ⟨401, [], "", .null⟩ ⟨200, [], "", .null⟩
    ⟨200, ["XSRF-TOKEN=abc"], "", .null⟩ ⟨401, [], "", .null⟩ []
    (by decide) rfl rfl rfl).1 rfl

/-- C4: a data operation invoked with an empty stored token performs
exactly one implicit login sequence — the auth POST followed by the session
GET — before the data request itself is sent: the trace extends with
`authPost`, `sessionGet` and then the data request, in that order, with
nothing in between. -/
theorem request_implicit_login_first (method url : String)
    (json : Option JVal) (tr : List ReqEvent) (rA rS : HttpResp)
    (ev : NetEvent) (rest : List NetEvent)
    (hA : rA.status = 200) (hS : rS.status = 200) :
    ∃ (t1 : String) (Δ : List ReqEvent),
      (request method url json true
          ⟨"", false, .resp rA :: .resp rS :: ev :: rest, tr⟩).state.trace =
        tr ++ [.authPost, .sessionGet,
               .dataReq method url json (requestHeaders t1 json)] ++ Δ := by
  have hlog := login_ok_shape
    ⟨"", false, .resp rA :: .resp rS :: ev :: rest, tr⟩ rA rS (ev :: rest)
    rfl hA hS
  simp only at hlog
  have hU : ∀ s2 : St, ∃ Δ,
      ((retryAfterLogin (fun s3 => requestFuel method url json 0 s3))
        s2).state.trace = s2.trace ++ Δ := by
    intro s2
    obtain ⟨Δ, h, _⟩ := retryAfterLogin_trace
      (fun s3 => requestFuel method url json 0 s3) 1
      (fun s3 => requestFuel_trace method url json 0 s3) s2
    exact ⟨Δ, h⟩
  obtain ⟨Δ1, hΔ1⟩ := attemptRequest_trace_prefix method url json
    (retryAfterLogin (fun s3 => requestFuel method url json 0 s3))
    (setXsrfToken ⟨"", false, ev :: rest, tr ++ [.authPost, .sessionGet]⟩
      rS.setCookie) ev rest (setXsrfToken_env _ _) hU
  refine ⟨(setXsrfToken ⟨"", false, ev :: rest,
    tr ++ [.authPost, .sessionGet]⟩ rS.setCookie).xsrfToken, Δ1, ?_⟩
  rw [request_true_eq, requestFuel]
  simp only [show ensureLoggedIn
      ⟨"", false, .resp rA :: .resp rS :: ev :: rest, tr⟩ =
      login ⟨"", false, .resp rA :: .resp rS :: ev :: rest, tr⟩ from rfl,
    hlog]
  rw [handleClientError_state_trace, hΔ1, setXsrfToken_trace]
  simp

/-- Witness for C4 at a concrete script (login succeeds, then the data
call returns 200). -/
theorem request_implicit_login_first_witness :
    ∃ (t1 : String) (Δ : List ReqEvent),
      (request "GET" "u" none true
          ⟨"", false,
           [.resp ⟨200, [], "", .null⟩,
            .resp ⟨200, ["XSRF-TOKEN=abc"], "", .null⟩,
            .resp ⟨200, [], "", .str "d"⟩], []⟩).state.trace =
        [] ++ [.authPost, .sessionGet,
               .dataReq "GET" "u" none (requestHeaders t1 none)] ++ Δ :=
  request_implicit_login_first "GET" "u" none []
    ⟨200, [], "", .null⟩ ⟨200, ["XSRF-TOKEN=abc"], "", .null⟩
    (.resp ⟨200, [], "", .str "d"⟩) [] rfl rfl

/-- C6 (amended): a transport-level failure on the data request itself
surfaces `APIError` carrying the transport error's message and no status,
and closes the session; but a transport failure during the implicit login
performed when no token is stored propagates the raw `ClientError` and
leaves the session open. -/
theorem request_transport_failure (method url : String) (json : Option JVal)
    (t0 msg : String) (tr tr2 : List ReqEvent) (rest rest2 : List NetEvent)
    (ht : t0 ≠ "") :
    request method url json true ⟨t0, false, .clientError msg :: rest, tr⟩ =
      .raised (.apiError msg none)
        ⟨t0, true, rest,
         tr ++ [.dataReq method url json (requestHeaders t0 json)]⟩ ∧
    request method url json true
        ⟨"", false, .clientError msg :: rest2, tr2⟩ =
      .raised (.transportError msg)
        ⟨"", false, rest2, tr2 ++ [.authPost]⟩ := by
  constructor
  · simp [request, requestFuel, attemptRequest, ensureLoggedIn,
      handleClientError, ht]
  · simp [request, requestFuel, attemptRequest, ensureLoggedIn, login,
      handleClientError]

/-- Counterexample to C6 as stated: with no stored token, a transport
failure on the (implicit) login propagates as the raw transport error —
not as `APIError` — and the session is not closed. -/
theorem implicit_login_transport_failure_counterexample :
    request "GET" "u" none true
        ⟨"", false, [.clientError "Connection reset by peer"], []⟩ =
      .raised (.transportError "Connection reset by peer")
        ⟨"", false, [], [.authPost]⟩ ∧
    Exc.transportError "Connection reset by peer" ≠
      Exc.apiError "Connection reset by peer" none ∧
    (St.mk "" false [] [.authPost]).closed = false :=
  ⟨rfl, fun h => Exc.noConfusion h, rfl⟩

/-- Witness for C6 (amended) at a concrete authenticated state. -/
theorem request_transport_failure_witness :
    request "GET" "u" none true
        ⟨"tok0", false, [.clientError "Connection reset by peer"], []⟩ =
      .raised (.apiError "Connection reset by peer" none)
        ⟨"tok0", true, [],
         [.dataReq "GET" "u" none (requestHeaders "tok0" none)]⟩ ∧
    request "GET" "u" none true
        ⟨"", false, [.clientError "Connection reset by peer"], []⟩ =
      .raised (.transportError "Connection reset by peer")
        ⟨"", false, [], [.authPost]⟩ :=
  request_transport_failure "GET" "u" none "tok0"
    "Connection reset by peer" [] [] [] [] (by decide)

/-- C9 (amended): the stored XSRF token is never cleared — any request
leaves it unchanged or overwrites it with a non-empty value, and `logout`
leaves it unchanged — and in particular after the fatal double-401 the
`AuthenticationError` surfaces with the session closed but the token still
the non-empty value installed by the re-login. -/
theorem token_never_cleared (method url : String) (json : Option JVal)
    (retry : Bool) (s : St) (t0 : String) (tr : List ReqEvent)
    (r1 rA rS r2 : HttpResp) (rest : List NetEvent) (ht : t0 ≠ "")
    (h1 : r1.status = 401) (hA : rA.status = 200) (hS : rS.status = 200)
    (h2 : r2.status = 401) :
    ((request method url json retry s).state.xsrfToken = s.xsrfToken ∨
      (request method url json retry s).state.xsrfToken ≠ "") ∧
    (logout s).state.xsrfToken = s.xsrfToken ∧
    (∃ t1 : String, t1 ≠ "" ∧
      request method url json true
          ⟨t0, false, .resp r1 :: .resp rA :: .resp rS :: .resp r2 :: rest,
           tr⟩ =
        .raised (.authError 401)
          ⟨t1, true, rest,
           tr ++ [.dataReq method url json (requestHeaders t0 json),
                  .authPost, .sessionGet,
                  .dataReq method url json (requestHeaders t1 json)]⟩) := by
  refine ⟨requestFuel_token method url json (cond retry 1 0) s, ?_, ?_⟩
  · obtain ⟨tok, cl, env, tr0⟩ := s
    cases env with
    | nil => rfl
    | cons e r =>
      cases e with
      | clientError m => rfl
      | resp rr => rfl
  · obtain ⟨st1, ck1, tx1, js1⟩ := r1
    obtain ⟨stA, ckA, txA, jsA⟩ := rA
    obtain ⟨stS, ckS, txS, jsS⟩ := rS
    obtain ⟨st2, ck2, tx2, js2⟩ := r2
    have e1 : st1 = 401 := h1
    have eA : stA = 200 := hA
    have eS : stS = 200 := hS
    have e2 : st2 = 401 := h2
    subst e1; subst eA; subst eS; subst e2
    cases hsearch : xsrfSearch (String.intercalate ";" ckS).toList with
    | none =>
      refine ⟨t0, ht, ?_⟩
      simp only [String.toList] at hsearch
      simp [request, requestFuel, attemptRequest, retryAfterLogin,
        ensureLoggedIn, login, getSessionInfo, setXsrfToken,
        handleClientError, ht, hsearch]
    | some tok =>
      have htok := xsrfSearch_ne_empty _ _ hsearch
      refine ⟨tok, htok, ?_⟩
      simp only [String.toList] at hsearch
      simp [request, requestFuel, attemptRequest, retryAfterLogin,
        ensureLoggedIn, login, getSessionInfo, setXsrfToken,
        handleClientError, ht, hsearch, htok]

/-- Counterexample to C9 as stated: after the double-401 the
`AuthenticationError` surfaces while the stored token is the non-empty
value "abc" installed by the re-login — not the empty string. -/
theorem double401_token_nonempty_counterexample :
    request "GET" "u" none true
        ⟨"tok0", false,
         [.resp ⟨401, [], "", .null⟩, .resp ⟨200, [], "", .null⟩,
          .resp ⟨200, ["XSRF-TOKEN=abc"], "", .null⟩,
          .resp ⟨401, [], "", .null⟩], []⟩ =
      .raised (.authError 401)
        ⟨"abc", true, [],
         [.dataReq "GET" "u" none (requestHeaders "tok0" none), .authPost,
          .sessionGet, .dataReq "GET" "u" none (requestHeaders "abc" none)]⟩ ∧
    ("abc" : String) ≠ "" :=
  ⟨rfl, by decide⟩

/-- Witness for C9 (amended) at a concrete state and script. -/
theorem token_never_cleared_witness :
    ((request "GET" "u" none true
        ⟨"t", false, [.resp ⟨200, [], "", .null⟩], []⟩).state.xsrfToken =
      (St.mk "t" false [.resp ⟨200, [], "", .null⟩] []).xsrfToken ∨
      (request "GET" "u" none true
        ⟨"t", false, [.resp ⟨200, [], "", .null⟩], []⟩).state.xsrfToken ≠ "") ∧
    (logout ⟨"t", false, [.resp ⟨200, [], "", .null⟩], []⟩).state.xsrfToken =
      (St.mk "t" false [.resp ⟨200, [], "", .null⟩] []).xsrfToken ∧
    (∃ t1 : String, t1 ≠ "" ∧
      request "GET" "u" none true
          ⟨"tok0", false,
           [.resp ⟨401, [], "", .null⟩, .resp ⟨200, [], "", .null⟩,
            .resp ⟨200, ["XSRF-TOKEN=abc"], "", .null⟩,
            .resp ⟨401, [], "", .null⟩], []⟩ =
        .raised (.authError 401)
          ⟨t1, true, [],
           [.dataReq "GET" "u" none (requestHeaders "tok0" none), .authPost,
            .sessionGet,
            .dataReq "GET" "u" none (requestHeaders t1 none)]⟩) :=
  token_never_cleared "GET" "u" none true
    ⟨"t", false, [.resp ⟨200, [], "", .null⟩], []⟩ "tok0" []
    ⟨401, [], "", .null⟩ ⟨200, [], "", .null⟩
    ⟨200, ["XSRF-TOKEN=abc"], "", .null⟩ ⟨401, [], "", .null⟩ []
    (by decide) rfl rfl rfl rfl

end NetzOOE
